import Mathlib

/-!
Shallow embedding of the PeoplestrongMCPServer sources (src/main.ts and
src/tools.ts): the session-keyed streaming router (`app.post("/messages")`,
`app.get("/sse")`), the in-code tool-dispatch helper `runWithTools`, the
PeopleStrong credential fetchers (`fetchPSToken`, `getPSTokenWithApiKey`),
the generic integration helper `psPost`, and the field-code normalizer
`normalizeFieldCode`.  JavaScript strings are Lean strings; JSON values are
an inductive `Json` type; network effects are inputs (a `FetchResult` models
what a fetch produced); the completion provider and tool handlers are oracle
parameters.
-/

namespace PSMCP

/-- The whitespace class matched by the JavaScript regex `\s` and removed by
`String.prototype.trim` (restricted to the ASCII whitespace characters). -/
def isJsWs (c : Char) : Bool :=
  c = ' ' || c = '\t' || c = '\n' || c = '\r' || c = '\x0b' || c = '\x0c'

/-- ASCII lowering of one character, as `String.prototype.toLowerCase`
performs on ASCII input. -/
def lowerChar (c : Char) : Char :=
  if 'A' ≤ c ∧ c ≤ 'Z' then Char.ofNat (c.toNat + 32) else c

/-- Embeds `fieldCode.toLowerCase()` (ASCII range). -/
def jsLower (s : String) : String :=
  String.mk (s.data.map lowerChar)

/-- Embeds `.replace(/\s+/g, "")`: delete every whitespace character. -/
def stripWs (s : String) : String :=
  String.mk (s.data.filter (fun c => !isJsWs c))

/-- Embeds `s.startsWith(p)` on JavaScript strings. -/
def jsStartsWith (s p : String) : Bool :=
  p.data.isPrefixOf s.data

/-- Embeds `String.prototype.trim`: drop leading and trailing whitespace. -/
def jsTrim (s : String) : String :=
  String.mk (((s.data.dropWhile isJsWs).reverse.dropWhile isJsWs).reverse)

/-- Embedding of `normalizeFieldCode` from src/tools.ts lines 20-31: lower-case
the input, delete whitespace, then map recognised prefixes to canonical API
field names, returning the input unchanged when no prefix rule matches. -/
def normalizeFieldCode (fieldCode : String) : String :=
  let code := stripWs (jsLower fieldCode)
  if jsStartsWith code "offer" then "Offered Date"
  else if jsStartsWith code "birth" || jsStartsWith code "dob" then "Birth Date"
  else if jsStartsWith code "join" then "Date Of Joining"
  else if jsStartsWith code "confirmation" then "Confirmation Date"
  else if jsStartsWith code "relieving" then "Date Of Relieving"
  else if jsStartsWith code "retirement" then "Retirement Date"
  else if jsStartsWith code "l1" then "L1ManagerName"
  else if jsStartsWith code "l2" then "L2ManagerName"
  else fieldCode

/-- Every output of `normalizeFieldCode` is either the input itself or one of
the eight canonical field names. -/
theorem normalizeFieldCode_cases (s : String) :
    normalizeFieldCode s = s ∨
    normalizeFieldCode s ∈ (["Offered Date", "Birth Date", "Date Of Joining",
      "Confirmation Date", "Date Of Relieving", "Retirement Date",
      "L1ManagerName", "L2ManagerName"] : List String) := by
  simp only [normalizeFieldCode]
  split_ifs <;> simp

/-- C10: `normalizeFieldCode` is idempotent: applying it twice gives the same
result as applying it once, because each canonical output re-matches its own
prefix rule (or no rule) and every unmatched input is returned unchanged. -/
theorem normalizeFieldCode_idem (s : String) :
    normalizeFieldCode (normalizeFieldCode s) = normalizeFieldCode s := by
  rcases normalizeFieldCode_cases s with h | h
  · rw [h]; exact h
  · simp only [List.mem_cons, List.not_mem_nil, or_false] at h
    rcases h with h | h | h | h | h | h | h | h <;> rw [h] <;> decide

/-- JSON values as produced by `res.json()` / consumed by `JSON.stringify`.
Numbers are modelled as integers (the payloads the claims concern carry no
fractional numbers). -/
inductive Json where
  | null : Json
  | bool (b : Bool) : Json
  | num (n : Int) : Json
  | str (s : String) : Json
  | arr (xs : List Json) : Json
  | obj (fields : List (String × Json)) : Json

/-- JavaScript truthiness of a JSON value: `null`, `false`, `0` and `""` are
falsy; every object and array is truthy. -/
def truthy : Json → Bool
  | .null => false
  | .bool b => b
  | .num n => n != 0
  | .str s => s != ""
  | .arr _ => true
  | .obj _ => true

/-- JavaScript property access `j.k`: a key lookup on an object, `undefined`
(modelled as `none`) on every other value. -/
def jsGet (j : Json) (k : String) : Option Json :=
  match j with
  | .obj fields => (fields.find? (fun f => f.1 = k)).map (·.2)
  | _ => none

/-- The nullish-coalescing operator `x ?? d`: `d` exactly when `x` is missing
(`undefined`) or `null`. -/
def jsNullish (x : Option Json) (d : Json) : Json :=
  match x with
  | none => d
  | some .null => d
  | some v => v

/-- JSON string escaping used by `JSON.stringify` (quote, backslash and the
common control characters). -/
def escapeChar (c : Char) : String :=
  if c = '"' then "\\\""
  else if c = '\\' then "\\\\"
  else if c = '\n' then "\\n"
  else if c = '\r' then "\\r"
  else if c = '\t' then "\\t"
  else String.mk [c]

/-- Escape every character of a string for JSON output. -/
def escapeString (s : String) : String :=
  String.join (s.data.map escapeChar)

mutual

/-- Embedding of `JSON.stringify` on the `Json` model. -/
def jsonStringify : Json → String
  | .null => "null"
  | .bool true => "true"
  | .bool false => "false"
  | .num n => toString n
  | .str s => "\"" ++ escapeString s ++ "\""
  | .arr xs => "[" ++ stringifyElems xs ++ "]"
  | .obj fields => "\x7b" ++ stringifyFields fields ++ "\x7d"

/-- Comma-separated serialization of array elements. -/
def stringifyElems : List Json → String
  | [] => ""
  | [x] => jsonStringify x
  | x :: y :: rest => jsonStringify x ++ "," ++ stringifyElems (y :: rest)

/-- Comma-separated serialization of object fields. -/
def stringifyFields : List (String × Json) → String
  | [] => ""
  | [(k, v)] => "\"" ++ escapeString k ++ "\":" ++ jsonStringify v
  | (k, v) :: f :: rest =>
      "\"" ++ escapeString k ++ "\":" ++ jsonStringify v ++ "," ++ stringifyFields (f :: rest)

end

/-- What one `fetch` call produced, as seen by the calling code: `ok` and
`status` mirror `res.ok` / `res.status`; `bodyText` is the string that
`res.text().catch(() => "")` yields; `bodyJson` is the outcome of
`res.json()` — `Except.error m` when the body is malformed JSON and parsing
throws an error with message `m`. -/
structure HttpResponse where
  ok : Bool
  status : Nat
  bodyText : String
  bodyJson : Except String Json

/-- Outcome of issuing a `fetch`: either the promise rejected (network
failure or abort) with an error message, or a response arrived. -/
inductive FetchResult where
  | failure (msg : String) : FetchResult
  | response (r : HttpResponse) : FetchResult

/-- Embedding of the employee-list extraction inside `psPost`
(src/tools.ts lines 144-154): the truthiness-guarded chain
`toolResult && toolResult.root && toolResult.root.EmployeeMaster &&
Array.isArray(toolResult.root.EmployeeMaster.EmployeeMasterData)`;
any failed check leaves `employeeList = []`. -/
def employeeMasterData (j : Json) : List Json :=
  if truthy j then
    match jsGet j "root" with
    | some root =>
        if truthy root then
          match jsGet root "EmployeeMaster" with
          | some em =>
              if truthy em then
                match jsGet em "EmployeeMasterData" with
                | some (.arr xs) => xs
                | _ => []
              else []
          | none => []
        else []
    | none => []
  else []

/-- Embedding of `psPost` from src/tools.ts lines 117-167, as a function of
what its single `fetch` produced.  A rejected fetch, a non-ok status (which
throws `API error <status>: <text>`) and a `res.json()` parse error are all
caught by the surrounding `try`/`catch` and turned into the
`❌ Error fetching tokens – <message>` string; on a parsed body the nested
employee list (empty when absent) is truncated to its first 5 entries and
serialized with `JSON.stringify`. -/
def psPost (f : FetchResult) : String :=
  match f with
  | .failure msg => "❌ Error fetching tokens – " ++ msg
  | .response r =>
      if !r.ok then
        "❌ Error fetching tokens – API error " ++ toString r.status ++ ": " ++ r.bodyText
      else
        match r.bodyJson with
        | .error m => "❌ Error fetching tokens – " ++ m
        | .ok j => jsonStringify (.arr ((employeeMasterData j).take 5))

/-- Embedding of `fetchPSToken` from src/tools.ts lines 36-66, as a function
of what its token-endpoint `fetch` produced.  Every thrown error is re-thrown
with the `fetchPSToken failed: ` prefix; a truthy `access_token` value is
returned. -/
def fetchPSToken (f : FetchResult) : Except String Json :=
  match f with
  | .failure msg => .error ("fetchPSToken failed: " ++ msg)
  | .response r =>
      if !r.ok then
        .error ("fetchPSToken failed: PeopleStrong responded " ++ toString r.status ++ ": "
          ++ r.bodyText)
      else
        match r.bodyJson with
        | .error m => .error ("fetchPSToken failed: " ++ m)
        | .ok j =>
            match jsGet j "access_token" with
            | some v =>
                if truthy v then .ok v
                else .error "fetchPSToken failed: No access_token in response"
            | none => .error "fetchPSToken failed: No access_token in response"

/-- Embedding of `getPSTokenWithApiKey` from src/tools.ts lines 71-112, as a
function of what its `fetch` produced.  Thrown errors gain the
`getPSTokenWithApiKey failed: ` prefix; on a parsed body the pair
`(json.apiKey ?? "(no apiKey in response)",
json.accessToken ?? "(no accessToken in response)")` is returned. -/
def getPSTokenWithApiKey (f : FetchResult) : Except String (Json × Json) :=
  match f with
  | .failure msg => .error ("getPSTokenWithApiKey failed: " ++ msg)
  | .response r =>
      if !r.ok then
        .error ("getPSTokenWithApiKey failed: HTTP " ++ toString r.status ++ ": " ++ r.bodyText)
      else
        match r.bodyJson with
        | .error m => .error ("getPSTokenWithApiKey failed: " ++ m)
        | .ok j =>
            .ok (jsNullish (jsGet j "apiKey") (.str "(no apiKey in response)"),
                 jsNullish (jsGet j "accessToken") (.str "(no accessToken in response)"))

/-- The `streams` map (`Map<string, SSEServerTransport>` in src/main.ts line
252) as an association list with unique keys; channels are identified by a
number. -/
def Streams := List (String × Nat)

/-- `streams.get(id)`: first binding for the key, if any. -/
def mapGet (m : List (String × Nat)) (k : String) : Option Nat :=
  match m with
  | [] => none
  | (k', v) :: rest => if k' = k then some v else mapGet rest k

/-- `streams.set(id, t)`: JavaScript `Map.set` semantics — overwrite the
existing binding for the key in place, or append a new one. -/
def mapSet (m : List (String × Nat)) (k : String) (v : Nat) : List (String × Nat) :=
  match m with
  | [] => [(k, v)]
  | (k', v') :: rest => if k' = k then (k, v) :: rest else (k', v') :: mapSet rest k v

/-- Embedding of the `app.get("/sse")` handler (src/main.ts lines 261-269):
an empty session id is rejected with status 400 and the registry is left
unchanged; otherwise a fresh transport is bound to the id with
`streams.set(id, t)` and no error status is produced.  The result is
(HTTP error status if any, updated registry). -/
def sseGet (streams : List (String × Nat)) (id : String) (newChannel : Nat) :
    Option Nat × List (String × Nat) :=
  if id = "" then (some 400, streams)
  else (none, mapSet streams id newChannel)

/-- One callback event produced by `t.handlePostMessage` while processing an
inbound message: a streamed assistant token (with its `last` flag), a
one-shot assistant message, or a tool result.  Messages and tool results
carry the role and content of the object spread into the frame. -/
inductive PmEvent where
  | token (content : String) (last : Bool) : PmEvent
  | message (role content : String) : PmEvent
  | toolResult (role content : String) : PmEvent

/-- Is this event rendered with `done: true`?  Tokens only when flagged
`last`; one-shot messages and tool results always. -/
def PmEvent.isTerminal : PmEvent → Bool
  | .token _ last => last
  | .message _ _ => true
  | .toolResult _ _ => true

/-- One SSE frame as sent by `t.send` from the `/messages` handler. -/
structure Frame where
  role : String
  content : String
  done : Bool

/-- The frame the `/messages` handler sends for one callback event
(src/main.ts lines 278-289): tokens become
`{ role: "assistant", content: token, done: last }`; messages and tool
results are spread with `done: true`. -/
def frameOfEvent : PmEvent → Frame
  | .token c last => ⟨"assistant", c, last⟩
  | .message role c => ⟨role, c, true⟩
  | .toolResult role c => ⟨role, c, true⟩

/-- Result of one `POST /messages` request: the HTTP status the handler set
itself (`some 202` when the session is unknown, `none` when the response is
delegated to the transport), the frames sent on the session's channel, and
how many times the fallback invoked the completion provider directly. -/
structure PostOutcome where
  status : Option Nat
  frames : List Frame
  llmCalls : Nat

/-- Embedding of the `app.post("/messages")` handler (src/main.ts lines
271-296).  Inputs: the registry, the resolved session id, the raw
`req.body.content` string, the callback events the transport produced for
this message, and the completion provider as an oracle (`llm`).  If the id
has no open channel the handler replies 202 with no frames.  Otherwise every
event is sent as a frame; when no event at all arrived (`saw` stays false)
and the trimmed content is non-empty, `runChatLLM` is invoked once on the
raw content and its reply is sent as a single `done: true` frame. -/
def postMessages (streams : List (String × Nat)) (id : String) (content : String)
    (events : List PmEvent) (llm : String → String) : PostOutcome :=
  match mapGet streams id with
  | none => ⟨some 202, [], 0⟩
  | some _ =>
      let frames := events.map frameOfEvent
      let saw := !events.isEmpty
      if !saw && !(jsTrim content = "") then
        ⟨none, frames ++ [⟨"assistant", llm content, true⟩], 1⟩
      else
        ⟨none, frames, 0⟩

/-- One entry of `msg.tool_calls` as produced by the completion provider:
`call.id`, `call.function.name` and the raw `call.function.arguments`
string. -/
structure ToolCall where
  id : String
  name : String
  args : String

/-- The provider's first reply message inside `runWithTools`: its text
content (absent when the model only requested tools) and its tool calls. -/
structure ChatMsg where
  content : Option String
  toolCalls : List ToolCall

/-- Embedding of `runWithTools` from src/main.ts lines 771-878, as a function
of the provider's first reply and oracles for the two tool handlers and the
second provider round.  `weatherTool` models parsing the arguments and
running `fetchWeather` (whose exceptions propagate, hence `Except`);
`psTokenTool` models `fetchPSToken`, whose errors the branch catches into the
`❌  Error fetching token – ` text; `secondReply` models the second
`chat.completions.create` call, given the tool name and the tool result
string.  The value is the returned string (or a propagated exception)
together with the list of tool handlers actually invoked. -/
def runWithTools (first : ChatMsg) (weatherTool : String → Except String String)
    (psTokenTool : String → Except String String)
    (secondReply : String → String → Option String) :
    Except String String × List String :=
  match first.toolCalls with
  | [] => (.ok (first.content.getD "(no answer)"), [])
  | call :: _ =>
      if call.name = "getWeather" then
        match weatherTool call.args with
        | .error e => (.error e, ["getWeather"])
        | .ok toolResult =>
            (.ok ((secondReply "getWeather" toolResult).getD "(no answer)"), ["getWeather"])
      else if call.name = "getPSToken" then
        let toolResult :=
          match psTokenTool call.args with
          | .ok tok => tok
          | .error e => "❌  Error fetching token – " ++ e
        (.ok ((secondReply "getPSToken" toolResult).getD "(no answer)"), ["getPSToken"])
      else
        (.ok (first.content.getD "(no answer)"), [])

/-! Claim theorems. -/

/-- C2: for every response body psPost receives that carries a nested list at
`root.EmployeeMaster.EmployeeMasterData`, the returned value is exactly the
JSON serialization of the first `min(5, length)` entries of that list in
their original order, and a list of 6 or more entries is truncated to
exactly 5. -/
theorem psPost_truncates_to_five (r : HttpResponse) (j root em : Json) (xs : List Json)
    (hok : r.ok = true) (hj : r.bodyJson = .ok j) (htj : truthy j = true)
    (hroot : jsGet j "root" = some root) (htroot : truthy root = true)
    (hem : jsGet root "EmployeeMaster" = some em) (htem : truthy em = true)
    (hxs : jsGet em "EmployeeMasterData" = some (.arr xs)) :
    psPost (.response r) = jsonStringify (.arr (xs.take 5)) ∧
      (6 ≤ xs.length → (xs.take 5).length = 5) := by
  constructor
  · simp [psPost, hok, hj, employeeMasterData, htj, hroot, htroot, hem, htem, hxs]
  · intro h
    simp only [List.length_take]
    omega

/-- Witness for C2 on a concrete six-entry employee list: the serialized
result keeps exactly the first five entries. -/
theorem psPost_truncates_to_five_witness :
    psPost (.response ⟨true, 200, "", .ok (Json.obj [("root", Json.obj [("EmployeeMaster",
        Json.obj [("EmployeeMasterData", Json.arr [.num 1, .num 2, .num 3, .num 4, .num 5,
        .num 6])])])])⟩) =
      jsonStringify (.arr (([Json.num 1, .num 2, .num 3, .num 4, .num 5, .num 6]).take 5)) ∧
      (6 ≤ ([Json.num 1, .num 2, .num 3, .num 4, .num 5, .num 6] : List Json).length →
        (([Json.num 1, .num 2, .num 3, .num 4, .num 5, .num 6] : List Json).take 5).length = 5) :=
  psPost_truncates_to_five _ _ _ _ _ rfl rfl rfl rfl rfl rfl rfl rfl

/-- C3 counterexample: an ok response whose parsed body lacks the expected
nested field does not produce a Failure outcome string — psPost returns the
serialization of an empty list, `"[]"`, which does not carry the
`❌ Error fetching tokens` failure marker. -/
theorem psPost_missing_field_not_failure :
    psPost (.response ⟨true, 200, "", .ok (Json.obj [("root", Json.obj [])])⟩) = "[]" ∧
      jsStartsWith
        (psPost (.response ⟨true, 200, "", .ok (Json.obj [("root", Json.obj [])])⟩)) "❌"
        = false :=
  ⟨rfl, rfl⟩

/-- C3 amended: network failure, non-2xx status and malformed JSON each yield
the `❌ Error fetching tokens – …` Failure string, while a parsed body with
the expected nested field missing yields the serialization of an empty list
instead of a Failure string; every path returns a string (no exception
escapes psPost, which is total). -/
theorem psPost_error_handling (msg : String) (r : HttpResponse) (e : String) (j : Json) :
    psPost (.failure msg) = "❌ Error fetching tokens – " ++ msg ∧
    (r.ok = false → psPost (.response r) =
      "❌ Error fetching tokens – API error " ++ toString r.status ++ ": " ++ r.bodyText) ∧
    (r.ok = true → r.bodyJson = .error e → psPost (.response r) =
      "❌ Error fetching tokens – " ++ e) ∧
    (r.ok = true → r.bodyJson = .ok j → psPost (.response r) =
      jsonStringify (.arr ((employeeMasterData j).take 5))) := by
  refine ⟨rfl, fun hok => ?_, fun hok hj => ?_, fun hok hj => ?_⟩
  · simp [psPost, hok]
  · simp [psPost, hok, hj]
  · simp [psPost, hok, hj]

/-- Witness for the amended C3 at concrete inputs covering all four paths. -/
theorem psPost_error_handling_witness :
    psPost (.failure "socket hang up") = "❌ Error fetching tokens – socket hang up" ∧
    psPost (.response ⟨false, 500, "boom", .ok .null⟩) =
      "❌ Error fetching tokens – API error 500: boom" ∧
    psPost (.response ⟨true, 200, "", .error "Unexpected token"⟩) =
      "❌ Error fetching tokens – Unexpected token" ∧
    psPost (.response ⟨true, 200, "", .ok (Json.obj [])⟩) =
      jsonStringify (.arr ((employeeMasterData (Json.obj [])).take 5)) :=
  ⟨(psPost_error_handling "socket hang up" ⟨false, 500, "boom", .ok .null⟩ "e" .null).1,
   (psPost_error_handling "x" ⟨false, 500, "boom", .ok .null⟩ "e" .null).2.1 rfl,
   (psPost_error_handling "x" ⟨true, 200, "", .error "Unexpected token"⟩
      "Unexpected token" .null).2.2.1 rfl rfl,
   (psPost_error_handling "x" ⟨true, 200, "", .ok (Json.obj [])⟩ "e"
      (Json.obj [])).2.2.2 rfl rfl⟩

/-- C6 counterexample: an ok response whose body lacks both `apiKey` and
`accessToken` makes getPSTokenWithApiKey return a credential value built from
placeholder strings — it does not fail with a CredentialError. -/
theorem getPSTokenWithApiKey_missing_fields_returns_value :
    getPSTokenWithApiKey (.response ⟨true, 200, "", .ok (Json.obj [])⟩) =
      .ok (.str "(no apiKey in response)", .str "(no accessToken in response)") :=
  rfl

/-- C6 amended: on a non-success HTTP status both credential fetchers fail
with a prefixed error carrying the upstream status and body snippet; a
missing (or falsy) `access_token` makes the OAuth variant fail; the API-key
variant never fails on missing fields — it substitutes the placeholder
strings `(no apiKey in response)` / `(no accessToken in response)` and
returns them as the credential. -/
theorem credential_exchange_errors (r : HttpResponse) (j : Json) :
    (r.ok = false →
      fetchPSToken (.response r) = .error ("fetchPSToken failed: PeopleStrong responded "
        ++ toString r.status ++ ": " ++ r.bodyText) ∧
      getPSTokenWithApiKey (.response r) = .error ("getPSTokenWithApiKey failed: HTTP "
        ++ toString r.status ++ ": " ++ r.bodyText)) ∧
    (r.ok = true → r.bodyJson = .ok j → jsGet j "access_token" = none →
      fetchPSToken (.response r) = .error "fetchPSToken failed: No access_token in response") ∧
    (r.ok = true → r.bodyJson = .ok j →
      getPSTokenWithApiKey (.response r) =
        .ok (jsNullish (jsGet j "apiKey") (.str "(no apiKey in response)"),
             jsNullish (jsGet j "accessToken") (.str "(no accessToken in response)"))) := by
  refine ⟨fun hok => ⟨?_, ?_⟩, fun hok hj hmiss => ?_, fun hok hj => ?_⟩
  · simp [fetchPSToken, hok]
  · simp [getPSTokenWithApiKey, hok]
  · simp [fetchPSToken, hok, hj, hmiss]
  · simp [getPSTokenWithApiKey, hok, hj]

/-- Witness for the amended C6 at concrete inputs: a 401 upstream status, a
body without `access_token`, and a body without the API-key fields. -/
theorem credential_exchange_errors_witness :
    (fetchPSToken (.response ⟨false, 401, "denied", .ok .null⟩) =
      .error "fetchPSToken failed: PeopleStrong responded 401: denied" ∧
     getPSTokenWithApiKey (.response ⟨false, 401, "denied", .ok .null⟩) =
      .error "getPSTokenWithApiKey failed: HTTP 401: denied") ∧
    fetchPSToken (.response ⟨true, 200, "", .ok (Json.obj [("scope", .str "hr")])⟩) =
      .error "fetchPSToken failed: No access_token in response" ∧
    getPSTokenWithApiKey (.response ⟨true, 200, "", .ok (Json.obj [("scope", .str "hr")])⟩) =
      .ok (jsNullish (jsGet (Json.obj [("scope", .str "hr")]) "apiKey")
            (.str "(no apiKey in response)"),
           jsNullish (jsGet (Json.obj [("scope", .str "hr")]) "accessToken")
            (.str "(no accessToken in response)")) :=
  ⟨(credential_exchange_errors ⟨false, 401, "denied", .ok .null⟩ .null).1 rfl,
   (credential_exchange_errors ⟨true, 200, "", .ok (Json.obj [("scope", .str "hr")])⟩
      (Json.obj [("scope", .str "hr")])).2.1 rfl rfl rfl,
   (credential_exchange_errors ⟨true, 200, "", .ok (Json.obj [("scope", .str "hr")])⟩
      (Json.obj [("scope", .str "hr")])).2.2 rfl rfl⟩

/-- Setting a key with JavaScript `Map.set` semantics makes a later get of
that key return the new value. -/
theorem mapGet_mapSet (m : List (String × Nat)) (k : String) (v : Nat) :
    mapGet (mapSet m k v) k = some v := by
  induction m with
  | nil => simp [mapSet, mapGet]
  | cons p rest ih =>
      obtain ⟨k', v'⟩ := p
      by_cases h : k' = k
      · simp [mapSet, mapGet, h]
      · simp [mapSet, mapGet, h, ih]

/-- C5 counterexample: with session `"abc"` already bound to channel 1, a
second `/sse` registration for `"abc"` with channel 2 is not rejected — it
succeeds (no error status) and afterwards the registry maps `"abc"` to the
new channel 2, not the original channel 1. -/
theorem sse_duplicate_id_replaces :
    sseGet [("abc", 1)] "abc" 2 = (none, [("abc", 2)]) ∧
      mapGet (sseGet [("abc", 1)] "abc" 2).2 "abc" = some 2 :=
  ⟨rfl, rfl⟩

/-- C5 amended: a second registration with an id already present in the
registry does not fail; the `/sse` handler unconditionally `Map.set`s, so it
silently replaces the existing channel binding, and afterwards the registry
maps the id to the newly supplied channel (only an empty id is rejected,
with status 400). -/
theorem sseGet_replaces_existing (streams : List (String × Nat)) (id : String) (ch : Nat)
    (h : id ≠ "") :
    sseGet streams id ch = (none, mapSet streams id ch) ∧
      mapGet (sseGet streams id ch).2 id = some ch := by
  constructor
  · simp [sseGet, h]
  · simp [sseGet, h, mapGet_mapSet]

/-- Witness for the amended C5: re-registering the already-present id
`"abc"` rebinds it to the new channel. -/
theorem sseGet_replaces_existing_witness :
    sseGet [("abc", 1)] "abc" 2 = (none, mapSet [("abc", 1)] "abc" 2) ∧
      mapGet (sseGet [("abc", 1)] "abc" 2).2 "abc" = some 2 :=
  sseGet_replaces_existing [("abc", 1)] "abc" 2 (by decide)

/-- C8: posting a message whose resolved session id has no open channel in
the registry yields HTTP 202 with zero frames emitted and no completion
provider invocation — the message is dropped, not queued. -/
theorem postMessages_unknown_session (streams : List (String × Nat)) (id content : String)
    (events : List PmEvent) (llm : String → String) (h : mapGet streams id = none) :
    postMessages streams id content events llm = ⟨some 202, [], 0⟩ := by
  simp [postMessages, h]

/-- Witness for C8: a post for the absent id `"missing"` gives 202 and no
frames. -/
theorem postMessages_unknown_session_witness :
    postMessages [("abc", 1)] "missing" "hello" [] (fun p => p) = ⟨some 202, [], 0⟩ :=
  postMessages_unknown_session [("abc", 1)] "missing" "hello" [] (fun p => p) rfl

/-- C7: when the provider path produced no events at all for a registered
session, a non-empty (after trimming) content triggers exactly one direct
completion call whose reply is delivered as a single `done: true` frame,
while empty-or-whitespace content triggers no call and no frame. -/
theorem postMessages_fallback (streams : List (String × Nat)) (id : String) (ch : Nat)
    (content : String) (llm : String → String) (hch : mapGet streams id = some ch) :
    (jsTrim content ≠ "" →
      postMessages streams id content [] llm =
        ⟨none, [⟨"assistant", llm content, true⟩], 1⟩) ∧
    (jsTrim content = "" →
      postMessages streams id content [] llm = ⟨none, [], 0⟩) := by
  constructor <;> intro h <;> simp [postMessages, hch, h]

/-- Witness for C7: with session `"s"` open and no provider events, content
`"hello"` yields one `done: true` frame carrying the completion reply, and
whitespace content `"  "` yields nothing. -/
theorem postMessages_fallback_witness :
    postMessages [("s", 7)] "s" "hello" [] (fun p => "echo:" ++ p) =
      ⟨none, [⟨"assistant", "echo:hello", true⟩], 1⟩ ∧
    postMessages [("s", 7)] "s" "  " [] (fun p => "echo:" ++ p) = ⟨none, [], 0⟩ :=
  ⟨(postMessages_fallback [("s", 7)] "s" 7 "hello" (fun p => "echo:" ++ p) rfl).1 (by decide),
   (postMessages_fallback [("s", 7)] "s" 7 "  " (fun p => "echo:" ++ p) rfl).2 (by decide)⟩

/-- A frame carries `done: true` exactly when its event is terminal. -/
theorem frameOfEvent_done (e : PmEvent) : (frameOfEvent e).done = e.isTerminal := by
  cases e <;> rfl

/-- C1 counterexample: a provider path that produces a tool result followed
by a one-shot assistant message makes the handler emit two `done: true`
frames for the same inbound message. -/
theorem two_done_frames_possible :
    ((postMessages [("s", 7)] "s" "hi" [.toolResult "tool" "r", .message "assistant" "m"]
        (fun _ => "x")).frames.filter (fun fr => fr.done)).length = 2 :=
  rfl

/-- C1 amended: exactly one `done: true` frame is emitted, and it is the last
frame, whenever the provider path produces either no events with non-empty
trimmed content (the fallback path) or a sequence of events whose only
terminal event is the final one; the handler itself enforces no such bound —
each one-shot message, tool result or last-flagged token independently
yields a `done: true` frame. -/
theorem postMessages_one_terminal (streams : List (String × Nat)) (id : String) (ch : Nat)
    (content : String) (events : List PmEvent) (llm : String → String)
    (hch : mapGet streams id = some ch)
    (h : (events = [] ∧ jsTrim content ≠ "") ∨
      (∃ es e, events = es ++ [e] ∧ e.isTerminal = true ∧ ∀ x ∈ es, x.isTerminal = false)) :
    (postMessages streams id content events llm).frames ≠ [] ∧
    ((postMessages streams id content events llm).frames.filter
      (fun fr => fr.done)).length = 1 ∧
    ∃ fr, (postMessages streams id content events llm).frames.getLast? = some fr ∧
      fr.done = true := by
  rcases h with ⟨hev, hc⟩ | ⟨es, e, hev, hterm, hes⟩
  · subst hev
    simp [postMessages, hch, hc]
  · subst hev
    have hframes : (postMessages streams id content (es ++ [e]) llm).frames =
        (es ++ [e]).map frameOfEvent := by
      simp [postMessages, hch]
    rw [hframes]
    refine ⟨by simp, ?_, ?_⟩
    · rw [List.map_append, List.filter_append]
      have h1 : (es.map frameOfEvent).filter (fun fr => fr.done) = [] := by
        rw [List.filter_eq_nil_iff]
        intro fr hfr
        rw [List.mem_map] at hfr
        obtain ⟨x, hx, hfx⟩ := hfr
        simp [← hfx, frameOfEvent_done, hes x hx]
      rw [h1]
      simp [frameOfEvent_done, hterm]
    · refine ⟨frameOfEvent e, ?_, by rw [frameOfEvent_done, hterm]⟩
      rw [List.map_append]
      simp [List.getLast?_concat]

/-- Witness for the amended C1: a two-token stream whose only last-flagged
token is final yields exactly one terminal frame, in last position. -/
theorem postMessages_one_terminal_witness :
    (postMessages [("s", 7)] "s" "hi" [.token "He" false, .token "llo" true]
        (fun _ => "x")).frames ≠ [] ∧
    ((postMessages [("s", 7)] "s" "hi" [.token "He" false, .token "llo" true]
        (fun _ => "x")).frames.filter (fun fr => fr.done)).length = 1 ∧
    ∃ fr, (postMessages [("s", 7)] "s" "hi" [.token "He" false, .token "llo" true]
        (fun _ => "x")).frames.getLast? = some fr ∧ fr.done = true :=
  postMessages_one_terminal [("s", 7)] "s" 7 "hi" [.token "He" false, .token "llo" true]
    (fun _ => "x") rfl
    (Or.inr ⟨[.token "He" false], .token "llo" true, rfl, rfl, by
      intro x hx
      simp only [List.mem_singleton] at hx
      subst hx
      rfl⟩)

/-- C4 counterexample: a provider reply whose first tool call names the
unregistered tool `getEmployeeDetails` makes runWithTools return the reply's
own text `"hello"` with no handler invoked — not a `tool not found`
failure. -/
theorem runWithTools_unknown_tool_returns_text :
    runWithTools ⟨some "hello", [⟨"call-1", "getEmployeeDetails", "\x7b\x7d"⟩]⟩
        (fun _ => .ok "sunny") (fun _ => .ok "token") (fun _ r => some r) =
      (.ok "hello", []) ∧ ("hello" : String) ≠ "tool not found" :=
  ⟨rfl, by decide⟩

/-- C4 amended: for every tool-call request naming a tool other than
`getWeather` and `getPSToken`, runWithTools invokes no handler and returns
the provider message's text content (or `(no answer)` when absent); it never
produces a `Failure("tool not found")` result — the unknown call is silently
ignored. -/
theorem runWithTools_unknown_tool (first : ChatMsg)
    (wT : String → Except String String) (pT : String → Except String String)
    (sR : String → String → Option String) (call : ToolCall) (rest : List ToolCall)
    (hcalls : first.toolCalls = call :: rest)
    (hw : call.name ≠ "getWeather") (hp : call.name ≠ "getPSToken") :
    runWithTools first wT pT sR = (.ok (first.content.getD "(no answer)"), []) := by
  simp [runWithTools, hcalls, hw, hp]

/-- Witness for the amended C4 at a concrete unknown tool name. -/
theorem runWithTools_unknown_tool_witness :
    runWithTools ⟨some "hello", [⟨"call-1", "getCandidateDetails", "\x7b\x7d"⟩]⟩
        (fun _ => .ok "sunny") (fun _ => .ok "token") (fun _ r => some r) =
      (.ok ((some "hello").getD "(no answer)"), []) :=
  runWithTools_unknown_tool ⟨some "hello", [⟨"call-1", "getCandidateDetails", "\x7b\x7d"⟩]⟩
    (fun _ => .ok "sunny") (fun _ => .ok "token") (fun _ r => some r)
    ⟨"call-1", "getCandidateDetails", "\x7b\x7d"⟩ [] rfl (by decide) (by decide)

end PSMCP
